import Mathlib

/-!
Shallow embedding of the OPC UA client subscription registry
(`src/client/src/subscription_state.rs`) and of the binary codec of
`StatusChangeNotification`
(`src/types/src/service_types/status_change_notification.rs`).

Rust's `HashMap<UInt32, Subscription>` is embedded as an association list
`List (Nat × Subscription)`; `insert` replaces any entry with the same key,
`remove` drops it, `get_mut`-based updates rewrite the matching entry in
place, matching the extensional behaviour of `std::collections::HashMap`.
Machine integers (`UInt32`, `Byte`) carry no arithmetic in this code, so they
are embedded as `Nat`; `Double` (`f64`) is only stored and read back, never
computed with, so it is embedded as `Rat`.
-/

namespace Opcua

/-- Keyed map embedded as an association list: membership test,
mirroring `HashMap::contains_key`. -/
def hmContains (k : Nat) : List (Nat × α) → Bool
  | [] => false
  | p :: rest => if p.1 == k then true else hmContains k rest

/-- Lookup, mirroring `HashMap::get`. -/
def hmLookup (k : Nat) : List (Nat × α) → Option α
  | [] => none
  | p :: rest => if p.1 == k then some p.2 else hmLookup k rest

/-- Insert, mirroring `HashMap::insert`: the new entry replaces any entry
with the same key. -/
def hmInsert (k : Nat) (v : α) (l : List (Nat × α)) : List (Nat × α) :=
  (k, v) :: l.filter (fun p => p.1 != k)

/-- Remove, mirroring `HashMap::remove`. -/
def hmErase (k : Nat) (l : List (Nat × α)) : List (Nat × α) :=
  l.filter (fun p => p.1 != k)

/-- In-place update of the entry at `k` when present, mirroring the
`if let Some(x) = map.get_mut(&k) { mutate x }` pattern of the source. -/
def hmModify (k : Nat) (f : α → α) (l : List (Nat × α)) : List (Nat × α) :=
  l.map (fun p => if p.1 == k then (p.1, f p.2) else p)

/-- Number of entries stored under key `k`. -/
def hmCountKey (k : Nat) : List (Nat × α) → Nat
  | [] => 0
  | p :: rest => (if p.1 == k then 1 else 0) + hmCountKey k rest

/-- Modelled from the spec: `MonitoredItem` (the `subscription` module is not
part of the given sources). §3 lists its fields: id, monitoring policy and a
bounded queue; the registry claims only need the id and the stored policy
fields, which suffice to distinguish items. -/
structure MonitoredItem where
  id : Nat
  client_handle : Nat
  sampling_interval : Rat
  queue_size : Nat
  discard_oldest : Bool
deriving Repr, DecidableEq

/-- Modelled from the spec: the item-spec passed to `insert_monitored_items`
(`CreateMonitoredItem` in the source, not under the given sources). -/
structure CreateMonitoredItem where
  id : Nat
  client_handle : Nat
  sampling_interval : Rat
  queue_size : Nat
  discard_oldest : Bool
deriving Repr, DecidableEq

/-- Modelled from the spec: the item-spec passed to `modify_monitored_items`
(`ModifyMonitoredItem` in the source, not under the given sources). -/
structure ModifyMonitoredItem where
  id : Nat
  sampling_interval : Rat
  queue_size : Nat
deriving Repr, DecidableEq

/-- Modelled from the spec: `Subscription` (the `subscription` module is not
part of the given sources). §3: id, publishing_interval, lifetime_count,
max_keep_alive_count, max_notifications_per_publish, priority,
publishing_enabled, and the owned monitored-item map. -/
structure Subscription where
  subscription_id : Nat
  publishing_interval : Rat
  lifetime_count : Nat
  max_keep_alive_count : Nat
  max_notifications_per_publish : Nat
  priority : Nat
  publishing_enabled : Bool
  monitored_items : List (Nat × MonitoredItem)
deriving Repr, DecidableEq

/-- Modelled from the spec: setter used by `modify_subscription`. -/
def Subscription.set_publishing_interval (s : Subscription) (v : Rat) : Subscription :=
  { s with publishing_interval := v }

/-- Modelled from the spec: setter used by `modify_subscription`. -/
def Subscription.set_lifetime_count (s : Subscription) (v : Nat) : Subscription :=
  { s with lifetime_count := v }

/-- Modelled from the spec: setter used by `modify_subscription`. -/
def Subscription.set_max_keep_alive_count (s : Subscription) (v : Nat) : Subscription :=
  { s with max_keep_alive_count := v }

/-- Modelled from the spec: setter used by `modify_subscription`. -/
def Subscription.set_max_notifications_per_publish (s : Subscription) (v : Nat) : Subscription :=
  { s with max_notifications_per_publish := v }

/-- Modelled from the spec: setter used by `modify_subscription`. -/
def Subscription.set_priority (s : Subscription) (v : Nat) : Subscription :=
  { s with priority := v }

/-- Modelled from the spec (§4.3): item creation adds each spec to the owned
item map under its id. -/
def Subscription.insert_monitored_items (s : Subscription)
    (items_to_create : List CreateMonitoredItem) : Subscription :=
  let items :=
    items_to_create.foldl
      (fun m c => hmInsert c.id
        { id := c.id, client_handle := c.client_handle,
          sampling_interval := c.sampling_interval,
          queue_size := c.queue_size, discard_oldest := c.discard_oldest } m)
      s.monitored_items
  { s with monitored_items := items }

/-- Modelled from the spec (§4.3): item modification updates
sampling_interval and queue_size of matching items, skipping unknown ids. -/
def Subscription.modify_monitored_items (s : Subscription)
    (items_to_modify : List ModifyMonitoredItem) : Subscription :=
  let items :=
    items_to_modify.foldl
      (fun m c => hmModify c.id
        (fun it => { it with sampling_interval := c.sampling_interval,
                             queue_size := c.queue_size }) m)
      s.monitored_items
  { s with monitored_items := items }

/-- Modelled from the spec (§4.3): item deletion removes matching entries,
ignoring unknown ids. -/
def Subscription.delete_monitored_items (s : Subscription)
    (items_to_delete : List Nat) : Subscription :=
  let items := items_to_delete.foldl (fun m i => hmErase i m) s.monitored_items
  { s with monitored_items := items }

/-- `SubscriptionState` from `src/client/src/subscription_state.rs`:
subscriptions keyed by subscription_id. -/
structure SubscriptionState where
  subscriptions : List (Nat × Subscription)
deriving Repr, DecidableEq

/-- `SubscriptionState::new`. -/
def SubscriptionState.new : SubscriptionState := ⟨[]⟩

/-- `SubscriptionState::is_empty`. -/
def SubscriptionState.is_empty (s : SubscriptionState) : Bool :=
  s.subscriptions.isEmpty

/-- `SubscriptionState::subscription_exists`. -/
def SubscriptionState.subscription_exists (s : SubscriptionState)
    (subscription_id : Nat) : Bool :=
  hmContains subscription_id s.subscriptions

/-- `SubscriptionState::add_subscription`: inserts keyed by the
subscription's own id. -/
def SubscriptionState.add_subscription (s : SubscriptionState)
    (subscription : Subscription) : SubscriptionState :=
  ⟨hmInsert subscription.subscription_id subscription s.subscriptions⟩

/-- `SubscriptionState::modify_subscription`: if the id is present, apply
the five setters to that subscription; otherwise do nothing. -/
def SubscriptionState.modify_subscription (s : SubscriptionState)
    (subscription_id : Nat) (publishing_interval : Rat) (lifetime_count : Nat)
    (max_keep_alive_count : Nat) (max_notifications_per_publish : Nat)
    (priority : Nat) : SubscriptionState :=
  ⟨hmModify subscription_id
    (fun sub =>
      ((((sub.set_publishing_interval publishing_interval).set_lifetime_count
          lifetime_count).set_max_keep_alive_count
          max_keep_alive_count).set_max_notifications_per_publish
          max_notifications_per_publish).set_priority priority)
    s.subscriptions⟩

/-- `SubscriptionState::delete_subscription`. -/
def SubscriptionState.delete_subscription (s : SubscriptionState)
    (subscription_id : Nat) : SubscriptionState :=
  ⟨hmErase subscription_id s.subscriptions⟩

/-- `SubscriptionState::insert_monitored_items`: delegates to the
subscription when the id is present, otherwise does nothing. -/
def SubscriptionState.insert_monitored_items (s : SubscriptionState)
    (subscription_id : Nat) (items_to_create : List CreateMonitoredItem) :
    SubscriptionState :=
  ⟨hmModify subscription_id (fun sub => sub.insert_monitored_items items_to_create)
    s.subscriptions⟩

/-- `SubscriptionState::modify_monitored_items`: delegates to the
subscription when the id is present, otherwise does nothing. -/
def SubscriptionState.modify_monitored_items (s : SubscriptionState)
    (subscription_id : Nat) (items_to_modify : List ModifyMonitoredItem) :
    SubscriptionState :=
  ⟨hmModify subscription_id (fun sub => sub.modify_monitored_items items_to_modify)
    s.subscriptions⟩

/-- `SubscriptionState::delete_monitored_items`: delegates to the
subscription when the id is present, otherwise does nothing. -/
def SubscriptionState.delete_monitored_items (s : SubscriptionState)
    (subscription_id : Nat) (items_to_delete : List Nat) : SubscriptionState :=
  ⟨hmModify subscription_id (fun sub => sub.delete_monitored_items items_to_delete)
    s.subscriptions⟩

/-- A registry-level call, for reasoning about call sequences (§8: "For any
sequence of add/modify/delete_subscription calls"). -/
inductive RegistryOp where
  | add (sub : Subscription)
  | modify (id : Nat) (publishing_interval : Rat) (lifetime_count : Nat)
      (max_keep_alive_count : Nat) (max_notifications_per_publish : Nat)
      (priority : Nat)
  | delete (id : Nat)
deriving Repr, DecidableEq

/-- Apply one registry call to a state. -/
def applyOp (s : SubscriptionState) : RegistryOp → SubscriptionState
  | RegistryOp.add sub => s.add_subscription sub
  | RegistryOp.modify id pubInterval lc mkac mnpp prio =>
      s.modify_subscription id pubInterval lc mkac mnpp prio
  | RegistryOp.delete id => s.delete_subscription id

/-- Run a sequence of registry calls from a state. -/
def runOps (s : SubscriptionState) : List RegistryOp → SubscriptionState
  | [] => s
  | op :: rest => runOps (applyOp s op) rest

/-- Reference predicate taken from the claim wording: starting from presence
flag `b`, the id is present after the calls iff its most recent `add` has not
been followed by a `delete` of it; `modify` never changes presence. -/
def specExistsFrom (b : Bool) (id : Nat) : List RegistryOp → Bool
  | [] => b
  | RegistryOp.add sub :: rest =>
      specExistsFrom (if sub.subscription_id == id then true else b) id rest
  | RegistryOp.modify .. :: rest => specExistsFrom b id rest
  | RegistryOp.delete i :: rest =>
      specExistsFrom (if i == id then false else b) id rest

/-- Presence of an id after a call sequence from a fresh registry, per the
claim wording. -/
def specExists (id : Nat) (ops : List RegistryOp) : Bool :=
  specExistsFrom false id ops

/-- Modelled from the spec: `StatusCode` (defined in the `status_codes`
module, not under the given sources). Opaque here: only its own codec ever
inspects it. -/
structure StatusCode where
  code : Nat
deriving Repr, DecidableEq

/-- Modelled from the spec: `DiagnosticInfo` (not under the given sources).
Opaque here: only its own codec ever inspects it. -/
structure DiagnosticInfo where
  info : Nat
deriving Repr, DecidableEq

/-- `StatusChangeNotification` from
`src/types/src/service_types/status_change_notification.rs`. -/
structure StatusChangeNotification where
  status : StatusCode
  diagnostic_info : DiagnosticInfo
deriving Repr, DecidableEq

/-- A field codec as used by the generated `BinaryEncoder` impl: `byte_len`,
a fallible `encode` returning (reported size, bytes written to the stream),
and a fallible `decode` consuming a prefix of the stream. -/
structure FieldCodec (α : Type) where
  byte_len : α → Nat
  encode : α → Option (Nat × List Nat)
  decode : List Nat → Option (α × List Nat)

/-- A field codec round-trips: encoding succeeds, reports its `byte_len`,
writes exactly `byte_len` bytes, and decoding reads them back. -/
def FieldCodec.RoundTrips (c : FieldCodec α) : Prop :=
  ∀ a, ∃ b, c.encode a = some (c.byte_len a, b) ∧ b.length = c.byte_len a ∧
    ∀ rest, c.decode (b ++ rest) = some (a, rest)

/-- `StatusChangeNotification::byte_len`: sum of the field byte lengths. -/
def scnByteLen (cS : FieldCodec StatusCode) (cD : FieldCodec DiagnosticInfo)
    (v : StatusChangeNotification) : Nat :=
  cS.byte_len v.status + cD.byte_len v.diagnostic_info

/-- `StatusChangeNotification::encode`: encode `status` then
`diagnostic_info`, propagating failure, returning the summed size and the
bytes written. -/
def scnEncode (cS : FieldCodec StatusCode) (cD : FieldCodec DiagnosticInfo)
    (v : StatusChangeNotification) : Option (Nat × List Nat) :=
  match cS.encode v.status with
  | none => none
  | some (n1, b1) =>
    match cD.encode v.diagnostic_info with
    | none => none
    | some (n2, b2) => some (n1 + n2, b1 ++ b2)

/-- `StatusChangeNotification::decode`: decode `status` then
`diagnostic_info` from the stream, propagating failure. -/
def scnDecode (cS : FieldCodec StatusCode) (cD : FieldCodec DiagnosticInfo)
    (bytes : List Nat) : Option (StatusChangeNotification × List Nat) :=
  match cS.decode bytes with
  | none => none
  | some (st, r1) =>
    match cD.decode r1 with
    | none => none
    | some (di, r2) => some ({ status := st, diagnostic_info := di }, r2)

/-- A concrete one-byte `StatusCode` codec, used to instantiate the
round-trip theorem. -/
def unitStatusCodec : FieldCodec StatusCode where
  byte_len := fun _ => 1
  encode := fun a => some (1, [a.code])
  decode := fun bytes =>
    match bytes with
    | [] => none
    | b :: rest => some (⟨b⟩, rest)

/-- A concrete one-byte `DiagnosticInfo` codec, used to instantiate the
round-trip theorem. -/
def unitDiagCodec : FieldCodec DiagnosticInfo where
  byte_len := fun _ => 1
  encode := fun a => some (1, [a.info])
  decode := fun bytes =>
    match bytes with
    | [] => none
    | b :: rest => some (⟨b⟩, rest)

/-- Modelled from the spec (§7): the error kinds of the engine. -/
inductive UaError where
  | identifierNotFound
  | sequenceUnavailable
  | subscriptionExpired
  | invalidParameter
deriving Repr, DecidableEq

/-- Modelled from the spec: §3 says item creation "fails if the subscription
is absent" and §7 names the error `IdentifierNotFound`. This is the spec's
version of `insert_monitored_items`, stated for comparison with the source's
version above. -/
def specInsertMonitoredItems (s : SubscriptionState) (subscription_id : Nat)
    (items_to_create : List CreateMonitoredItem) :
    Except UaError SubscriptionState :=
  if s.subscription_exists subscription_id then
    Except.ok (s.insert_monitored_items subscription_id items_to_create)
  else
    Except.error UaError.identifierNotFound

/-- Modelled from the spec: §8 says operations on item ids of a deleted
subscription "report IdentifierNotFound". This is the spec's version of
`modify_monitored_items`, stated for comparison with the source's version
above. -/
def specModifyMonitoredItems (s : SubscriptionState) (subscription_id : Nat)
    (items_to_modify : List ModifyMonitoredItem) :
    Except UaError SubscriptionState :=
  if s.subscription_exists subscription_id then
    Except.ok (s.modify_monitored_items subscription_id items_to_modify)
  else
    Except.error UaError.identifierNotFound

/-- The record update performed by `modify_subscription` on a present
subscription: exactly the five parameters change, all other fields stay. -/
def Subscription.withParams (sub : Subscription) (publishing_interval : Rat)
    (lifetime_count mkac mnpp prio : Nat) : Subscription :=
  { sub with publishing_interval := publishing_interval, lifetime_count := lifetime_count, max_keep_alive_count := mkac, max_notifications_per_publish := mnpp, priority := prio }

/-- A concrete subscription (the §8 scenario values), used as witness data. -/
def sampleSub : Subscription :=
  { subscription_id := 1, publishing_interval := 100, lifetime_count := 30,
    max_keep_alive_count := 10, max_notifications_per_publish := 0,
    priority := 0, publishing_enabled := true, monitored_items := [] }

/-- A second concrete subscription with the same id as `sampleSub`, used as
witness data for replacement. -/
def sampleSub2 : Subscription :=
  { subscription_id := 1, publishing_interval := 200, lifetime_count := 31,
    max_keep_alive_count := 11, max_notifications_per_publish := 5,
    priority := 2, publishing_enabled := false, monitored_items := [] }

/-- A concrete item-creation spec, used as witness data. -/
def sampleCreate : CreateMonitoredItem :=
  { id := 7, client_handle := 77, sampling_interval := 250,
    queue_size := 1, discard_oldest := true }

/-- A concrete item-modification spec targeting `sampleCreate`, used as
witness data. -/
def sampleModify : ModifyMonitoredItem :=
  { id := 7, sampling_interval := 500, queue_size := 2 }

/-- The registry obtained by adding subscription 1, giving it monitored item
7, then deleting subscription 1 — the cascade-deletion scenario. -/
def cascadeState : SubscriptionState :=
  ((SubscriptionState.new.add_subscription sampleSub).insert_monitored_items 1
    [sampleCreate]).delete_subscription 1

/-! ### Helper lemmas about the association-list map -/

theorem hmContains_erase (k i : Nat) (l : List (Nat × α)) :
    hmContains i (hmErase k l) = if k = i then false else hmContains i l := by
  induction l with
  | nil => simp [hmErase, hmContains]
  | cons p rest ih =>
    simp only [hmErase, List.filter_cons] at *
    by_cases hpk : p.1 = k <;> by_cases hki : k = i <;>
      simp_all [hmContains, hmErase]

theorem hmContains_insert (k i : Nat) (v : α) (l : List (Nat × α)) :
    hmContains i (hmInsert k v l) = if k = i then true else hmContains i l := by
  have h := hmContains_erase k i l
  by_cases hki : k = i <;>
    simp_all [hmInsert, hmContains, hmErase]

theorem hmContains_modify (k i : Nat) (f : α → α) (l : List (Nat × α)) :
    hmContains i (hmModify k f l) = hmContains i l := by
  induction l with
  | nil => simp [hmModify, hmContains]
  | cons p rest ih =>
    simp only [hmModify, List.map_cons] at *
    by_cases hpk : p.1 = k <;> by_cases hpi : p.1 = i <;>
      simp_all [hmContains]

theorem hmModify_absent (k : Nat) (f : α → α) (l : List (Nat × α))
    (h : hmContains k l = false) : hmModify k f l = l := by
  induction l with
  | nil => rfl
  | cons p rest ih =>
    by_cases hpk : p.1 = k
    · simp [hmContains, hpk] at h
    · simp only [hmContains, hpk] at h
      simp_all [hmModify, hmContains]

theorem hmLookup_modify (k i : Nat) (f : α → α) (l : List (Nat × α)) :
    hmLookup i (hmModify k f l) =
      if k = i then (hmLookup i l).map f else hmLookup i l := by
  induction l with
  | nil => simp [hmModify, hmLookup]
  | cons p rest ih =>
    by_cases hpk : p.1 = k <;> by_cases hki : k = i <;> by_cases hpi : p.1 = i <;>
      simp_all [hmModify, hmLookup]

theorem hmLookup_insert (k i : Nat) (v : α) (l : List (Nat × α)) :
    hmLookup i (hmInsert k v l) = if k = i then some v else hmLookup i l := by
  induction l with
  | nil => by_cases hki : k = i <;> simp_all [hmInsert, hmLookup]
  | cons p rest ih =>
    simp only [hmInsert, List.filter_cons] at *
    by_cases hpk : p.1 = k <;> by_cases hki : k = i <;> by_cases hpi : p.1 = i <;>
      simp_all [hmLookup]

theorem hmLookup_erase (k i : Nat) (l : List (Nat × α)) :
    hmLookup i (hmErase k l) = if k = i then none else hmLookup i l := by
  induction l with
  | nil => simp [hmErase, hmLookup]
  | cons p rest ih =>
    simp only [hmErase, List.filter_cons] at *
    by_cases hpk : p.1 = k <;> by_cases hki : k = i <;> by_cases hpi : p.1 = i <;>
      simp_all [hmLookup]

theorem hmCountKey_erase_self (k : Nat) (l : List (Nat × α)) :
    hmCountKey k (hmErase k l) = 0 := by
  induction l with
  | nil => rfl
  | cons p rest ih =>
    simp only [hmErase, List.filter_cons] at *
    by_cases hpk : p.1 = k <;> simp_all [hmCountKey]

theorem hmCountKey_insert_self (k : Nat) (v : α) (l : List (Nat × α)) :
    hmCountKey k (hmInsert k v l) = 1 := by
  have h := hmCountKey_erase_self k l
  simp [hmInsert, hmCountKey, hmErase] at *
  exact h

theorem hmContains_forall_false_iff_nil (l : List (Nat × α)) :
    (∀ i, hmContains i l = false) ↔ l = [] := by
  constructor
  · intro h
    cases l with
    | nil => rfl
    | cons p rest =>
      have hp := h p.1
      simp [hmContains] at hp
  · intro h
    subst h
    intro i
    rfl

theorem hmLookup_of_contains (k : Nat) (l : List (Nat × α))
    (h : hmContains k l = true) : ∃ v, hmLookup k l = some v := by
  induction l with
  | nil => simp [hmContains] at h
  | cons p rest ih =>
    by_cases hpk : p.1 = k
    · exact ⟨p.2, by simp [hmLookup, hpk]⟩
    · simp only [hmContains, hpk] at h
      simp_all [hmLookup, hmContains]

/-! ### Lemmas about the registry operations -/

theorem isEmpty_iff_nil (l : List α) : l.isEmpty = true ↔ l = [] := by
  cases l <;> simp

theorem exists_add (s : SubscriptionState) (sub : Subscription) (i : Nat) :
    (s.add_subscription sub).subscription_exists i =
      if sub.subscription_id = i then true else s.subscription_exists i :=
  hmContains_insert sub.subscription_id i sub s.subscriptions

theorem exists_delete (s : SubscriptionState) (k i : Nat) :
    (s.delete_subscription k).subscription_exists i =
      if k = i then false else s.subscription_exists i :=
  hmContains_erase k i s.subscriptions

theorem exists_modify (s : SubscriptionState) (k : Nat) (pubInterval : Rat)
    (lc mkac mnpp prio i : Nat) :
    (s.modify_subscription k pubInterval lc mkac mnpp prio).subscription_exists i =
      s.subscription_exists i := by
  simp [SubscriptionState.modify_subscription, SubscriptionState.subscription_exists,
    hmContains_modify]

theorem runOps_subscription_exists (ops : List RegistryOp)
    (s : SubscriptionState) (id : Nat) :
    (runOps s ops).subscription_exists id =
      specExistsFrom (s.subscription_exists id) id ops := by
  induction ops generalizing s with
  | nil => rfl
  | cons op rest ih =>
    cases op with
    | add sub =>
      simp only [runOps, specExistsFrom]
      rw [ih]
      congr 1
      by_cases h : sub.subscription_id = id <;>
        simp [applyOp, exists_add, h]
    | modify k pubInterval lc mkac mnpp prio =>
      simp only [runOps, specExistsFrom]
      rw [ih]
      congr 1
      simp [applyOp, exists_modify]
    | delete k =>
      simp only [runOps, specExistsFrom]
      rw [ih]
      congr 1
      by_cases h : k = id <;>
        simp [applyOp, exists_delete, h]

theorem runOps_is_empty_iff (ops : List RegistryOp) :
    (runOps SubscriptionState.new ops).is_empty = true ↔
      ∀ j, specExists j ops = false := by
  have hmain : ∀ j, (runOps SubscriptionState.new ops).subscription_exists j =
      specExists j ops := fun j => runOps_subscription_exists ops _ j
  constructor
  · intro h j
    rw [← hmain j]
    have hnil : (runOps SubscriptionState.new ops).subscriptions = [] :=
      (isEmpty_iff_nil _).mp h
    simp [SubscriptionState.subscription_exists, hnil, hmContains]
  · intro h
    have hall : ∀ i,
        hmContains i (runOps SubscriptionState.new ops).subscriptions = false := by
      intro i
      have hi := (hmain i).trans (h i)
      simpa [SubscriptionState.subscription_exists] using hi
    have hnil := (hmContains_forall_false_iff_nil _).mp hall
    simp [SubscriptionState.is_empty, hnil]

theorem modify_subscription_absent_eq (s : SubscriptionState) (id : Nat)
    (pubInterval : Rat) (lc mkac mnpp prio : Nat)
    (h : s.subscription_exists id = false) :
    s.modify_subscription id pubInterval lc mkac mnpp prio = s := by
  have hc : hmContains id s.subscriptions = false := h
  unfold SubscriptionState.modify_subscription
  rw [hmModify_absent _ _ _ hc]

theorem insert_monitored_items_absent_eq (s : SubscriptionState) (id : Nat)
    (items : List CreateMonitoredItem) (h : s.subscription_exists id = false) :
    s.insert_monitored_items id items = s := by
  have hc : hmContains id s.subscriptions = false := h
  unfold SubscriptionState.insert_monitored_items
  rw [hmModify_absent _ _ _ hc]

theorem modify_monitored_items_absent_eq (s : SubscriptionState) (id : Nat)
    (items : List ModifyMonitoredItem) (h : s.subscription_exists id = false) :
    s.modify_monitored_items id items = s := by
  have hc : hmContains id s.subscriptions = false := h
  unfold SubscriptionState.modify_monitored_items
  rw [hmModify_absent _ _ _ hc]

theorem delete_monitored_items_absent_eq (s : SubscriptionState) (id : Nat)
    (items : List Nat) (h : s.subscription_exists id = false) :
    s.delete_monitored_items id items = s := by
  have hc : hmContains id s.subscriptions = false := h
  unfold SubscriptionState.delete_monitored_items
  rw [hmModify_absent _ _ _ hc]

theorem modify_subscription_lookup_self (s : SubscriptionState) (id : Nat)
    (pubInterval : Rat) (lc mkac mnpp prio : Nat) (sub : Subscription)
    (h : hmLookup id s.subscriptions = some sub) :
    hmLookup id (s.modify_subscription id pubInterval lc mkac mnpp prio).subscriptions =
      some (sub.withParams pubInterval lc mkac mnpp prio) := by
  unfold SubscriptionState.modify_subscription
  rw [hmLookup_modify]
  simp [h, Subscription.set_publishing_interval, Subscription.set_lifetime_count,
    Subscription.set_max_keep_alive_count, Subscription.withParams,
    Subscription.set_max_notifications_per_publish, Subscription.set_priority]

theorem modify_subscription_lookup_ne (s : SubscriptionState) (id : Nat)
    (pubInterval : Rat) (lc mkac mnpp prio : Nat) (j : Nat) (hj : j ≠ id) :
    hmLookup j (s.modify_subscription id pubInterval lc mkac mnpp prio).subscriptions =
      hmLookup j s.subscriptions := by
  unfold SubscriptionState.modify_subscription
  rw [hmLookup_modify, if_neg (fun h => hj h.symm)]

theorem add_subscription_lookup_self (s : SubscriptionState) (sub : Subscription) :
    hmLookup sub.subscription_id (s.add_subscription sub).subscriptions = some sub := by
  unfold SubscriptionState.add_subscription
  rw [hmLookup_insert]
  simp

theorem add_subscription_lookup_ne (s : SubscriptionState) (sub : Subscription)
    (j : Nat) (hj : j ≠ sub.subscription_id) :
    hmLookup j (s.add_subscription sub).subscriptions = hmLookup j s.subscriptions := by
  unfold SubscriptionState.add_subscription
  rw [hmLookup_insert, if_neg (fun h => hj h.symm)]

theorem delete_subscription_lookup_self (s : SubscriptionState) (id : Nat) :
    hmLookup id (s.delete_subscription id).subscriptions = none := by
  unfold SubscriptionState.delete_subscription
  rw [hmLookup_erase]
  simp

/-! ### Claim theorems -/

/-- C1: for every registry state and every subscription id not present,
`modify_subscription` with that id leaves the entire state unchanged and
`subscription_exists` for that id stays false; when the id is present,
`modify_subscription` updates exactly the five parameters
(publishing_interval, lifetime_count, max_keep_alive_count,
max_notifications_per_publish, priority) of that subscription, leaving
every other entry untouched. -/
theorem modify_subscription_absent_noop_present_updates
    (s : SubscriptionState) (id : Nat) (pubInterval : Rat)
    (lc mkac mnpp prio : Nat) :
    (s.subscription_exists id = false →
      s.modify_subscription id pubInterval lc mkac mnpp prio = s ∧
      (s.modify_subscription id pubInterval lc mkac mnpp prio).subscription_exists
        id = false) ∧
    (∀ sub, hmLookup id s.subscriptions = some sub →
      hmLookup id
          (s.modify_subscription id pubInterval lc mkac mnpp prio).subscriptions =
        some (sub.withParams pubInterval lc mkac mnpp prio)) ∧
    (∀ j, j ≠ id →
      hmLookup j
          (s.modify_subscription id pubInterval lc mkac mnpp prio).subscriptions =
        hmLookup j s.subscriptions) := by
  refine ⟨fun h => ⟨modify_subscription_absent_eq s id pubInterval lc mkac mnpp prio h, ?_⟩,
    fun sub hsub =>
      modify_subscription_lookup_self s id pubInterval lc mkac mnpp prio sub hsub,
    fun j hj => modify_subscription_lookup_ne s id pubInterval lc mkac mnpp prio j hj⟩
  rw [exists_modify]
  exact h

/-- C1 witness: on a one-subscription registry, modifying the absent id 99
changes nothing, and modifying the present id 1 stores the five given
parameter values. -/
theorem modify_subscription_absent_noop_present_updates_witness :
    ((SubscriptionState.new.add_subscription sampleSub).subscription_exists 99 =
        false ∧
      (SubscriptionState.new.add_subscription sampleSub).modify_subscription
          99 5 6 7 8 9 =
        SubscriptionState.new.add_subscription sampleSub) ∧
    hmLookup 1
        (((SubscriptionState.new.add_subscription sampleSub).modify_subscription
          1 5 6 7 8 9)).subscriptions =
      some (sampleSub.withParams 5 6 7 8 9) := by
  refine ⟨⟨by decide, ?_⟩, ?_⟩
  · exact ((modify_subscription_absent_noop_present_updates
      (SubscriptionState.new.add_subscription sampleSub) 99 5 6 7 8 9).1
        (by decide)).1
  · exact (modify_subscription_absent_noop_present_updates
      (SubscriptionState.new.add_subscription sampleSub) 1 5 6 7 8 9).2.1
        sampleSub (by decide)

/-- C6: `add_subscription` stores the subscription under its own id:
immediately afterwards `subscription_exists` on that id is true, `is_empty`
is false, and the stored value is the added subscription. -/
theorem add_subscription_keyed_by_own_id (s : SubscriptionState)
    (sub : Subscription) :
    (s.add_subscription sub).subscription_exists sub.subscription_id = true ∧
    (s.add_subscription sub).is_empty = false ∧
    hmLookup sub.subscription_id (s.add_subscription sub).subscriptions =
      some sub := by
  refine ⟨?_, ?_, add_subscription_lookup_self s sub⟩
  · rw [exists_add]
    simp
  · simp [SubscriptionState.add_subscription, SubscriptionState.is_empty, hmInsert]

/-- C8: adding a subscription whose id is already present silently replaces
the stored one: afterwards exactly one entry carries that id, it is the new
subscription, and all other ids are untouched. -/
theorem add_subscription_replaces_existing (s : SubscriptionState)
    (sub : Subscription)
    (_h : s.subscription_exists sub.subscription_id = true) :
    hmCountKey sub.subscription_id (s.add_subscription sub).subscriptions = 1 ∧
    hmLookup sub.subscription_id (s.add_subscription sub).subscriptions =
      some sub ∧
    ∀ j, j ≠ sub.subscription_id →
      hmLookup j (s.add_subscription sub).subscriptions =
        hmLookup j s.subscriptions := by
  refine ⟨?_, add_subscription_lookup_self s sub,
    fun j hj => add_subscription_lookup_ne s sub j hj⟩
  exact hmCountKey_insert_self sub.subscription_id sub s.subscriptions

/-- C8 witness: re-adding id 1 over `sampleSub` leaves exactly one entry for
id 1, holding `sampleSub2`. -/
theorem add_subscription_replaces_existing_witness :
    hmCountKey 1
        (((SubscriptionState.new.add_subscription sampleSub).add_subscription
          sampleSub2)).subscriptions = 1 ∧
    hmLookup 1
        (((SubscriptionState.new.add_subscription sampleSub).add_subscription
          sampleSub2)).subscriptions = some sampleSub2 := by
  have h := add_subscription_replaces_existing
    (SubscriptionState.new.add_subscription sampleSub) sampleSub2 (by decide)
  exact ⟨h.1, h.2.1⟩

/-- C9: `modify_subscription` validates nothing: whatever values are passed —
including a non-positive publishing interval or zero counts — are stored
unchanged into the present subscription. -/
theorem modify_subscription_no_validation (s : SubscriptionState) (id : Nat)
    (pubInterval : Rat) (lc mkac mnpp prio : Nat) (sub : Subscription)
    (h : hmLookup id s.subscriptions = some sub) :
    hmLookup id
        (s.modify_subscription id pubInterval lc mkac mnpp prio).subscriptions =
      some (sub.withParams pubInterval lc mkac mnpp prio) :=
  modify_subscription_lookup_self s id pubInterval lc mkac mnpp prio sub h

/-- C9 witness: a negative publishing interval and zero lifetime and
keep-alive counts are accepted and stored as given. -/
theorem modify_subscription_no_validation_witness :
    hmLookup 1
        (((SubscriptionState.new.add_subscription sampleSub).modify_subscription
          1 (-1) 0 0 0 0)).subscriptions =
      some (sampleSub.withParams (-1) 0 0 0 0) :=
  modify_subscription_no_validation
    (SubscriptionState.new.add_subscription sampleSub) 1 (-1) 0 0 0 0 sampleSub
    (by decide)

/-- C2: for any finite sequence of add/modify/delete calls from a fresh
registry, `subscription_exists id` is true exactly when the most recent add
of `id` has not been followed by a delete of `id`, and `is_empty` is true
exactly when no id is present. -/
theorem registry_tracks_call_sequences (ops : List RegistryOp) (id : Nat) :
    (runOps SubscriptionState.new ops).subscription_exists id = specExists id ops ∧
    ((runOps SubscriptionState.new ops).is_empty = true ↔
      ∀ j, specExists j ops = false) := by
  refine ⟨?_, runOps_is_empty_iff ops⟩
  have h := runOps_subscription_exists ops SubscriptionState.new id
  simpa [specExists, SubscriptionState.subscription_exists, SubscriptionState.new,
    hmContains] using h

/-- C3 counterexample: calling `insert_monitored_items` with the absent
subscription id 99 does not fail — it returns normally with the registry
unchanged (the Rust signature returns `()`, so no error can reach the
caller), whereas the spec's version reports `IdentifierNotFound`. -/
theorem insert_monitored_items_absent_counterexample :
    SubscriptionState.new.subscription_exists 99 = false ∧
    SubscriptionState.new.insert_monitored_items 99 [sampleCreate] =
      SubscriptionState.new ∧
    specInsertMonitoredItems SubscriptionState.new 99 [sampleCreate] =
      Except.error UaError.identifierNotFound :=
  ⟨rfl, rfl, rfl⟩

/-- C3 (amended): `insert_monitored_items` against an absent subscription id
is a silent no-op — it returns normally and leaves the registry unchanged —
while the spec-modelled version reports `IdentifierNotFound`. -/
theorem insert_monitored_items_absent_silent_noop (s : SubscriptionState)
    (id : Nat) (items : List CreateMonitoredItem)
    (h : s.subscription_exists id = false) :
    s.insert_monitored_items id items = s ∧
    specInsertMonitoredItems s id items =
      Except.error UaError.identifierNotFound := by
  refine ⟨insert_monitored_items_absent_eq s id items h, ?_⟩
  simp [specInsertMonitoredItems, h]

/-- C3 witness: the amended statement at the fresh registry and id 99. -/
theorem insert_monitored_items_absent_silent_noop_witness :
    SubscriptionState.new.insert_monitored_items 99 [sampleCreate] =
      SubscriptionState.new ∧
    specInsertMonitoredItems SubscriptionState.new 99 [sampleCreate] =
      Except.error UaError.identifierNotFound :=
  insert_monitored_items_absent_silent_noop SubscriptionState.new 99
    [sampleCreate] (by decide)

/-- C4 counterexample: after deleting subscription 1 (which owned monitored
item 7), `modify_monitored_items` and `delete_monitored_items` referencing
item 7 under subscription 1 return normally with the registry unchanged —
no `IdentifierNotFound` is reported (the Rust signatures return `()`),
whereas the spec's version reports it. -/
theorem delete_cascade_counterexample :
    cascadeState.subscription_exists 1 = false ∧
    hmLookup 1 cascadeState.subscriptions = none ∧
    cascadeState.modify_monitored_items 1 [sampleModify] = cascadeState ∧
    cascadeState.delete_monitored_items 1 [7] = cascadeState ∧
    specModifyMonitoredItems cascadeState 1 [sampleModify] =
      Except.error UaError.identifierNotFound :=
  ⟨rfl, rfl, rfl, rfl, rfl⟩

/-- C4 (amended): deleting a present subscription removes it together with
every monitored item it owns (nothing remains stored under the id), and
subsequent item operations under that id are silent no-ops leaving the
registry unchanged, rather than reporting `IdentifierNotFound` as the spec's
version does. -/
theorem delete_subscription_cascades_and_item_ops_silent
    (s : SubscriptionState) (id : Nat)
    (_hPresent : s.subscription_exists id = true) :
    (s.delete_subscription id).subscription_exists id = false ∧
    hmLookup id (s.delete_subscription id).subscriptions = none ∧
    (∀ items, (s.delete_subscription id).modify_monitored_items id items =
      s.delete_subscription id) ∧
    (∀ ids, (s.delete_subscription id).delete_monitored_items id ids =
      s.delete_subscription id) ∧
    (∀ items, specModifyMonitoredItems (s.delete_subscription id) id items =
      Except.error UaError.identifierNotFound) := by
  have hex : (s.delete_subscription id).subscription_exists id = false := by
    rw [exists_delete]
    simp
  refine ⟨hex, delete_subscription_lookup_self s id,
    fun items => modify_monitored_items_absent_eq _ id items hex,
    fun ids => delete_monitored_items_absent_eq _ id ids hex,
    fun items => by simp [specModifyMonitoredItems, hex]⟩

/-- C4 witness: the amended statement on the concrete cascade scenario. -/
theorem delete_subscription_cascades_and_item_ops_silent_witness :
    cascadeState.subscription_exists 1 = false ∧
    hmLookup 1 cascadeState.subscriptions = none ∧
    cascadeState.modify_monitored_items 1 [sampleModify] = cascadeState := by
  have h := delete_subscription_cascades_and_item_ops_silent
    ((SubscriptionState.new.add_subscription sampleSub).insert_monitored_items 1
      [sampleCreate]) 1 (by decide)
  exact ⟨h.1, h.2.1, h.2.2.1 [sampleModify]⟩

/-- C5: `modify_monitored_items` and `delete_monitored_items` called with an
absent subscription id are silent no-ops: they return normally and leave the
entire registry unchanged. -/
theorem item_ops_absent_silent_noop (s : SubscriptionState) (id : Nat)
    (hAbsent : s.subscription_exists id = false) :
    (∀ items, s.modify_monitored_items id items = s) ∧
    (∀ ids, s.delete_monitored_items id ids = s) :=
  ⟨fun items => modify_monitored_items_absent_eq s id items hAbsent,
   fun ids => delete_monitored_items_absent_eq s id ids hAbsent⟩

/-- C5 witness: a one-subscription registry is unchanged by item operations
against the absent subscription id 99. -/
theorem item_ops_absent_silent_noop_witness :
    (SubscriptionState.new.add_subscription sampleSub).modify_monitored_items 99
      [sampleModify] = SubscriptionState.new.add_subscription sampleSub ∧
    (SubscriptionState.new.add_subscription sampleSub).delete_monitored_items 99
      [7] = SubscriptionState.new.add_subscription sampleSub := by
  have h := item_ops_absent_silent_noop
    (SubscriptionState.new.add_subscription sampleSub) 99 (by decide)
  exact ⟨h.1 [sampleModify], h.2 [7]⟩

/-- C7: every registry operation is a deterministic pure state
transformation: applied to equal states with equal arguments, each operation
yields equal result values and equal successor states. -/
theorem registry_ops_deterministic (s1 s2 : SubscriptionState) (h : s1 = s2)
    (sub : Subscription) (id : Nat) (pubInterval : Rat)
    (lc mkac mnpp prio : Nat) (ci : List CreateMonitoredItem)
    (mi : List ModifyMonitoredItem) (di : List Nat) :
    s1.is_empty = s2.is_empty ∧
    s1.subscription_exists id = s2.subscription_exists id ∧
    s1.add_subscription sub = s2.add_subscription sub ∧
    s1.modify_subscription id pubInterval lc mkac mnpp prio =
      s2.modify_subscription id pubInterval lc mkac mnpp prio ∧
    s1.delete_subscription id = s2.delete_subscription id ∧
    s1.insert_monitored_items id ci = s2.insert_monitored_items id ci ∧
    s1.modify_monitored_items id mi = s2.modify_monitored_items id mi ∧
    s1.delete_monitored_items id di = s2.delete_monitored_items id di := by
  subst h
  exact ⟨rfl, rfl, rfl, rfl, rfl, rfl, rfl, rfl⟩

/-- C7 witness: the determinism statement applied at concrete states and
arguments. -/
theorem registry_ops_deterministic_witness :
    SubscriptionState.new.add_subscription sampleSub =
      SubscriptionState.new.add_subscription sampleSub :=
  (registry_ops_deterministic SubscriptionState.new SubscriptionState.new rfl
    sampleSub 1 100 30 10 0 0 [sampleCreate] [sampleModify] [7]).2.2.1

/-- C10: encoding a `StatusChangeNotification` and decoding the written
bytes yields the original value and leaves the rest of the stream, and a
successful encode reports a byte count equal to `byte_len` — given that the
`StatusCode` and `DiagnosticInfo` field codecs round-trip. -/
theorem scn_encode_decode_roundtrip (cS : FieldCodec StatusCode)
    (cD : FieldCodec DiagnosticInfo) (hS : cS.RoundTrips) (hD : cD.RoundTrips)
    (v : StatusChangeNotification) (rest : List Nat) :
    ∃ b, scnEncode cS cD v = some (scnByteLen cS cD v, b) ∧
      b.length = scnByteLen cS cD v ∧
      scnDecode cS cD (b ++ rest) = some (v, rest) := by
  obtain ⟨b1, he1, hl1, hd1⟩ := hS v.status
  obtain ⟨b2, he2, hl2, hd2⟩ := hD v.diagnostic_info
  refine ⟨b1 ++ b2, ?_, ?_, ?_⟩
  · simp [scnEncode, he1, he2, scnByteLen]
  · simp [hl1, hl2, scnByteLen]
  · rw [List.append_assoc]
    simp [scnDecode, hd1 (b2 ++ rest), hd2 rest]

theorem unitStatusCodec_roundtrips : unitStatusCodec.RoundTrips :=
  fun a => ⟨[a.code], rfl, rfl, fun _ => rfl⟩

theorem unitDiagCodec_roundtrips : unitDiagCodec.RoundTrips :=
  fun a => ⟨[a.info], rfl, rfl, fun _ => rfl⟩

/-- C10 witness: the round-trip applied with the concrete one-byte codecs to
a concrete notification and a nonempty remaining stream. -/
theorem scn_encode_decode_roundtrip_witness :
    ∃ b, scnEncode unitStatusCodec unitDiagCodec ⟨⟨3⟩, ⟨4⟩⟩ =
        some (scnByteLen unitStatusCodec unitDiagCodec ⟨⟨3⟩, ⟨4⟩⟩, b) ∧
      b.length = scnByteLen unitStatusCodec unitDiagCodec ⟨⟨3⟩, ⟨4⟩⟩ ∧
      scnDecode unitStatusCodec unitDiagCodec (b ++ [9]) =
        some (⟨⟨3⟩, ⟨4⟩⟩, [9]) :=
  scn_encode_decode_roundtrip unitStatusCodec unitDiagCodec
    unitStatusCodec_roundtrips unitDiagCodec_roundtrips ⟨⟨3⟩, ⟨4⟩⟩ [9]

end Opcua
